import Mathlib

/-!
Shallow embedding of the wiredtiger-dbm mapping layer (src/wtdbm/wtdbm.py).

The storage engine (the wiredtiger package) is external to the repository.
Its cursor calls are modelled by their observable outcomes: either an
integer return code (0 for success, WT_NOTFOUND for absence, anything else
an unexpected engine code) or a raised WiredTigerError carrying a message.
Each wrapper method is translated branch for branch from the Python
source; the table a healthy engine maintains is an association list of
byte strings in insertion order, with key uniqueness enforced by the
overwrite insert.
-/

deriving instance DecidableEq for Except

namespace Wtdbm

/-- Raw byte strings as stored by the engine (key_format=u, value_format=u). -/
abbrev Bytes := List Nat

/-- Python values crossing the codec boundary: bytes, str (a sequence of
unicode code points), None, and the module-level sentinel object _DEFAULT
(wtdbm.py line 16) that get and pop bind when the caller omits the default
argument. -/
inductive PyObj where
  | pyBytes (b : Bytes)
  | pyStr (s : List Nat)
  | pyNone
  | pySentinel
  deriving DecidableEq

/-- Exceptions the wrapper can let escape to the caller.  storeError
models the module's single exception class (class error, wtdbm.py line
19), which plays the role of both the spec's StoreError and AccessError;
wiredTigerError is the engine's own exception type escaping untranslated;
keyError, typeError, valueError, unicodeEncodeError and assertionError
model the Python builtins of those names. -/
inductive PyExc where
  | storeError (msg : String)
  | wiredTigerError (msg : String)
  | keyError
  | typeError
  | valueError (msg : String)
  | unicodeEncodeError
  | assertionError
  deriving DecidableEq

/-- Outcome of one engine cursor call as observed by the wrapper: a return
code, or a raised WiredTigerError with its message. -/
inductive CallRes where
  | ret (c : Int)
  | exn (msg : String)
  deriving DecidableEq

/-- The engine's not-found return code (wiredtiger.WT_NOTFOUND). -/
def WT_NOTFOUND : Int := -31803

/-- Whether an Except result is a success. -/
def exOk {α : Type} : Except PyExc α → Bool
  | Except.ok _ => true
  | Except.error _ => false

/-- Whether a wrapper result is the module's raised error class. -/
def errIsStoreError {α : Type} : Except PyExc α → Bool
  | Except.error (PyExc.storeError _) => true
  | _ => false

/-- Whether a wrapper result is an untranslated raised engine exception. -/
def errIsRawEngine {α : Type} : Except PyExc α → Bool
  | Except.error (PyExc.wiredTigerError _) => true
  | _ => false

theorem exOk_ok {α : Type} {r : Except PyExc α} (h : exOk r = true) :
    ∃ b, r = Except.ok b := by
  cases r with
  | ok b => exact ⟨b, rfl⟩
  | error e => simp [exOk] at h

/-! ## Codec (wtdbm.py lines 124-148, 383-390) -/

/-- Python str.encode with the Latin-1 scheme: the identity on code points
below 256, a UnicodeEncodeError otherwise. -/
def latin1Encode (s : List Nat) : Except PyExc Bytes :=
  if s.all (fun cp => cp < 256) then Except.ok s
  else Except.error PyExc.unicodeEncodeError

/-- WiredTigerDBM._pre_key (lines 124-131): bytes pass through, str is
Latin-1 encoded, anything else raises TypeError before any engine call. -/
def preKey : PyObj → Except PyExc Bytes
  | PyObj.pyBytes b => Except.ok b
  | PyObj.pyStr s => latin1Encode s
  | _ => Except.error PyExc.typeError

/-- WiredTigerDBM._pre_value (lines 137-144): same acceptance rule as
_pre_key. -/
def preValue : PyObj → Except PyExc Bytes
  | PyObj.pyBytes b => Except.ok b
  | PyObj.pyStr s => latin1Encode s
  | _ => Except.error PyExc.typeError

/-- WiredTigerDBM._post_value (lines 146-148): the stored bytes are
returned unchanged, as a Python bytes object. -/
def postValue (b : Bytes) : PyObj := PyObj.pyBytes b

/-- Encoded key of a Python object, defaulting to the empty byte string
when the codec rejects it (the default is never consulted because every
operation raises the codec error first). -/
def keyBytes (k : PyObj) : Bytes :=
  match preKey k with
  | Except.ok b => b
  | Except.error _ => []

/-- Encoded value of a Python object, with the same convention as
keyBytes. -/
def valBytes (v : PyObj) : Bytes :=
  match preValue v with
  | Except.ok b => b
  | Except.error _ => []

theorem keyBytes_eq {k : PyObj} {kb : Bytes} (h : preKey k = Except.ok kb) :
    keyBytes k = kb := by
  simp [keyBytes, h]

theorem valBytes_eq {v : PyObj} {vb : Bytes} (h : preValue v = Except.ok vb) :
    valBytes v = vb := by
  simp [valBytes, h]

/-! ## The compression transform of the gzip variant

Modelled from the spec: gzip.compress and gzip.decompress (Python
standard library, outside src/) are, per spec section 4.5, "a reversible
compression transform (configurable compression level)" composed on top
of the base codec.  They are modelled by a run-length encoding; the
compression level is accepted and, as the spec requires, every level is
reversible. -/

/-- Run-length encode a byte string into (count, byte) pairs, runs capped
at 255 so each count fits one byte. -/
def rleEncode : List Nat → List (Nat × Nat)
  | [] => []
  | b :: rest =>
    match rleEncode rest with
    | [] => [(1, b)]
    | (n, c) :: tail =>
      if c = b ∧ n < 255 then (n + 1, b) :: tail
      else (1, b) :: (n, c) :: tail

/-- Expand (count, byte) pairs back into a byte string. -/
def rleDecode : List (Nat × Nat) → List Nat
  | [] => []
  | (n, b) :: tail => List.replicate n b ++ rleDecode tail

/-- Serialize (count, byte) pairs as an alternating byte stream. -/
def pairsToBytes : List (Nat × Nat) → List Nat
  | [] => []
  | (n, b) :: tail => n :: b :: pairsToBytes tail

/-- Parse an alternating byte stream back into (count, byte) pairs. -/
def bytesToPairs : List Nat → List (Nat × Nat)
  | n :: b :: tail => (n, b) :: bytesToPairs tail
  | _ => []

/-- Modelled from the spec: gzip.compress at a given compresslevel. -/
def gzipCompress (compresslevel : Nat) (v : Bytes) : Bytes :=
  pairsToBytes (rleEncode v)

/-- Modelled from the spec: gzip.decompress. -/
def gzipDecompress (v : Bytes) : Bytes :=
  rleDecode (bytesToPairs v)

theorem rleDecode_rleEncode (l : List Nat) : rleDecode (rleEncode l) = l := by
  induction l with
  | nil => rfl
  | cons b rest ih =>
    cases hrec : rleEncode rest with
    | nil =>
      rw [hrec] at ih
      have hrest : rest = [] := by simpa [rleDecode] using ih.symm
      subst hrest
      simp [rleEncode, rleDecode]
    | cons p tail =>
      obtain ⟨n, c⟩ := p
      rw [hrec] at ih
      simp only [rleEncode, hrec]
      by_cases hcb : c = b ∧ n < 255
      · rw [if_pos hcb]
        rcases hcb with ⟨rfl, hn⟩
        simp only [rleDecode, List.replicate_succ, List.cons_append] at ih ⊢
        rw [ih]
      · rw [if_neg hcb]
        simp only [rleDecode] at ih ⊢
        simp [ih]

theorem bytesToPairs_pairsToBytes (l : List (Nat × Nat)) :
    bytesToPairs (pairsToBytes l) = l := by
  induction l with
  | nil => rfl
  | cons p tail ih =>
    obtain ⟨n, b⟩ := p
    simp [pairsToBytes, bytesToPairs, ih]

theorem gzipDecompress_gzipCompress (compresslevel : Nat) (v : Bytes) :
    gzipDecompress (gzipCompress compresslevel v) = v := by
  simp [gzipCompress, gzipDecompress, bytesToPairs_pairsToBytes, rleDecode_rleEncode]

/-- WiredTigerDBMGzip._pre_value (lines 383-386): the base codec's byte
encoding, then the compression transform at the configured level. -/
def preValueGzip (compresslevel : Nat) (v : PyObj) : Except PyExc Bytes :=
  match preValue v with
  | Except.ok b => Except.ok (gzipCompress compresslevel b)
  | Except.error e => Except.error e

/-- WiredTigerDBMGzip._post_value (lines 388-390): decompress the stored
bytes and return them as a Python bytes object. -/
def postValueGzip (b : Bytes) : PyObj := PyObj.pyBytes (gzipDecompress b)

/-! ## The engine table on a healthy engine -/

/-- The engine table: association list of raw byte keys to byte values,
in insertion order, keys unique. -/
abbrev Table := List (Bytes × Bytes)

/-- Engine cursor search: the value stored at the first matching key. -/
def Table.search : Table → Bytes → Option Bytes
  | [], _ => Option.none
  | (k, v) :: t, q => if k = q then Option.some v else Table.search t q

/-- Engine cursor insert with overwrite=true: replace the entry at an
existing key, or append a fresh entry. -/
def Table.insertOverwrite : Table → Bytes → Bytes → Table
  | [], q, v => [(q, v)]
  | (k, w) :: t, q, v =>
    if k = q then (q, v) :: t else (k, w) :: Table.insertOverwrite t q v

/-- Engine cursor remove: delete the entry at the key. -/
def Table.remove : Table → Bytes → Table
  | [], _ => []
  | (k, w) :: t, q =>
    if k = q then Table.remove t q else (k, w) :: Table.remove t q

theorem search_insertOverwrite (t : Table) (q v p : Bytes) :
    Table.search (Table.insertOverwrite t q v) p
      = if q = p then Option.some v else Table.search t p := by
  induction t with
  | nil => simp [Table.insertOverwrite, Table.search]
  | cons e rest ih =>
    obtain ⟨k, w⟩ := e
    by_cases hk : k = q
    · subst hk
      simp only [Table.insertOverwrite, if_pos rfl, Table.search]
      by_cases hp : k = p
      · subst hp
        simp [Table.search]
      · simp [Table.search, hp]
    · simp only [Table.insertOverwrite, if_neg hk, Table.search]
      by_cases hp : k = p
      · subst hp
        have hq : ¬q = k := fun h => hk h.symm
        simp [Table.search, hq]
      · simp [Table.search, hp, ih]

theorem search_remove (t : Table) (q p : Bytes) :
    Table.search (Table.remove t q) p
      = if q = p then Option.none else Table.search t p := by
  induction t with
  | nil => simp [Table.remove, Table.search]
  | cons e rest ih =>
    obtain ⟨k, w⟩ := e
    by_cases hk : k = q
    · subst hk
      simp only [Table.remove, if_pos rfl, Table.search]
      by_cases hp : k = p
      · subst hp
        simpa using ih
      · simp [hp, ih]
    · simp only [Table.remove, if_neg hk, Table.search, ih]
      by_cases hp : k = p
      · subst hp
        have hq : ¬q = k := fun h => hk h.symm
        simp [hq]
      · simp [hp]

theorem remove_of_search_none (t : Table) (q : Bytes)
    (h : Table.search t q = Option.none) : Table.remove t q = t := by
  induction t with
  | nil => rfl
  | cons e rest ih =>
    obtain ⟨k, w⟩ := e
    by_cases hk : k = q
    · subst hk
      simp [Table.search] at h
    · simp only [Table.search, if_neg hk] at h
      simp [Table.remove, hk, ih h]

/-! ## Cursor-scoped operations (wtdbm.py lines 150-354)

Each definition below is the branch-for-branch translation of one method,
with the outcome of its engine cursor call(s) passed in explicitly.  A
method whose body has no except clause lets a raised WiredTigerError
escape untranslated (modelled by the wiredTigerError result); only
methods with an except clause re-raise the module error. -/

/-- WiredTigerDBM.__getitem__ (lines 150-164): codec, then search; return
code 0 yields the decoded value, WT_NOTFOUND raises KeyError, any other
code raises the module error; the method has no except clause, so a
raised engine error propagates raw.  The cursor is closed on every path
by the finally block. -/
def getitem_ (key : PyObj) (searchC : CallRes) (val : Bytes) :
    Except PyExc PyObj :=
  match preKey key with
  | Except.error e => Except.error e
  | Except.ok _ =>
    match searchC with
    | CallRes.exn msg => Except.error (PyExc.wiredTigerError msg)
    | CallRes.ret c =>
      if c = 0 then Except.ok (postValue val)
      else if c = WT_NOTFOUND then Except.error PyExc.keyError
      else Except.error (PyExc.storeError ("Unknown return code: " ++ toString c))

/-- WiredTigerDBM.__setitem__ (lines 166-180): codec, then overwrite
insert; nonzero return codes raise the module error, and the except
clause re-raises a caught WiredTigerError as the module error with the
engine's message. -/
def setitem_ (key value : PyObj) (insertC : CallRes) : Except PyExc Unit :=
  match preKey key with
  | Except.error e => Except.error e
  | Except.ok _ =>
    match preValue value with
    | Except.error e => Except.error e
    | Except.ok _ =>
      match insertC with
      | CallRes.exn msg => Except.error (PyExc.storeError msg)
      | CallRes.ret c =>
        if c = 0 then Except.ok ()
        else Except.error (PyExc.storeError ("Unknown return code: " ++ toString c))

/-- WiredTigerDBM.__delitem__ (lines 182-195): codec, then remove with
overwrite=false; WT_NOTFOUND raises KeyError, other nonzero codes raise
the module error; no except clause, so a raised engine error propagates
raw. -/
def delitem_ (key : PyObj) (removeC : CallRes) : Except PyExc Unit :=
  match preKey key with
  | Except.error e => Except.error e
  | Except.ok _ =>
    match removeC with
    | CallRes.exn msg => Except.error (PyExc.wiredTigerError msg)
    | CallRes.ret c =>
      if c = 0 then Except.ok ()
      else if c = WT_NOTFOUND then Except.error PyExc.keyError
      else Except.error (PyExc.storeError ("Unknown return code: " ++ toString c))

/-- WiredTigerDBM.__contains__ (lines 244-257): search maps 0 to True and
WT_NOTFOUND to False, other codes raise the module error; no except
clause. -/
def contains_ (key : PyObj) (searchC : CallRes) : Except PyExc Bool :=
  match preKey key with
  | Except.error e => Except.error e
  | Except.ok _ =>
    match searchC with
    | CallRes.exn msg => Except.error (PyExc.wiredTigerError msg)
    | CallRes.ret c =>
      if c = 0 then Except.ok true
      else if c = WT_NOTFOUND then Except.ok false
      else Except.error (PyExc.storeError ("Unknown return code: " ++ toString c))

/-- WiredTigerDBM.pop (lines 267-286): search; on code 0 capture the
value and remove it, a nonzero remove code raising the module error; on
WT_NOTFOUND return the default; other search codes raise the module
error; no except clause, so a raised engine error (from either call)
propagates raw. -/
def pop_ (key default : PyObj) (searchC : CallRes) (val : Bytes)
    (removeC : CallRes) : Except PyExc PyObj :=
  match preKey key with
  | Except.error e => Except.error e
  | Except.ok _ =>
    match searchC with
    | CallRes.exn msg => Except.error (PyExc.wiredTigerError msg)
    | CallRes.ret c =>
      if c = 0 then
        match removeC with
        | CallRes.exn msg => Except.error (PyExc.wiredTigerError msg)
        | CallRes.ret c2 =>
          if c2 = 0 then Except.ok (postValue val)
          else Except.error (PyExc.storeError ("remove failed: " ++ toString c2))
      else if c = WT_NOTFOUND then Except.ok default
      else Except.error (PyExc.storeError ("Unknown return code: " ++ toString c))

/-- WiredTigerDBM.get (lines 319-333): like __getitem__ but WT_NOTFOUND
returns the default argument, which Python binds to the module sentinel
_DEFAULT when the caller omits it; no except clause. -/
def get_ (key default : PyObj) (searchC : CallRes) (val : Bytes) :
    Except PyExc PyObj :=
  match preKey key with
  | Except.error e => Except.error e
  | Except.ok _ =>
    match searchC with
    | CallRes.exn msg => Except.error (PyExc.wiredTigerError msg)
    | CallRes.ret c =>
      if c = 0 then Except.ok (postValue val)
      else if c = WT_NOTFOUND then Except.ok default
      else Except.error (PyExc.storeError ("Unknown return code: " ++ toString c))

/-- One body of the while loop in keys/values/items (lines 197-242) with
the outcome of cursor.next() injected: code 0 yields the element,
WT_NOTFOUND ends the iteration (modelled as none), any other code raises
the module error; the generators have no except clause, so a raised
engine error propagates raw. -/
def iterStep_ (nextC : CallRes) (elem : Bytes) :
    Except PyExc (Option Bytes) :=
  match nextC with
  | CallRes.exn msg => Except.error (PyExc.wiredTigerError msg)
  | CallRes.ret c =>
    if c = 0 then Except.ok (Option.some elem)
    else if c = WT_NOTFOUND then Except.ok Option.none
    else Except.error (PyExc.storeError ("Unknown return code: " ++ toString c))

/-! ## The same operations on a healthy engine

On a healthy engine a cursor call returns 0 or WT_NOTFOUND according to
the table contents and never raises; the table state before and after
the call is made explicit. -/

/-- Search outcome the engine reports for a key on a healthy table. -/
def hSearch (t : Table) (kb : Bytes) : CallRes :=
  match Table.search t kb with
  | Option.some _ => CallRes.ret 0
  | Option.none => CallRes.ret WT_NOTFOUND

/-- Value cursor.get_value returns after a successful search. -/
def hVal (t : Table) (kb : Bytes) : Bytes :=
  match Table.search t kb with
  | Option.some v => v
  | Option.none => []

/-- __getitem__ on a healthy engine. -/
def getitemT (t : Table) (key : PyObj) : Except PyExc PyObj :=
  getitem_ key (hSearch t (keyBytes key)) (hVal t (keyBytes key))

/-- __setitem__ on a healthy engine: the insert returns 0 and the table
gains the encoded pair (overwrite=true). -/
def setitemT (t : Table) (key value : PyObj) : Except PyExc Table :=
  (setitem_ key value (CallRes.ret 0)).map
    (fun _ => Table.insertOverwrite t (keyBytes key) (valBytes value))

/-- __contains__ on a healthy engine. -/
def containsT (t : Table) (key : PyObj) : Except PyExc Bool :=
  contains_ key (hSearch t (keyBytes key))

/-- pop on a healthy engine: the remove call returns 0 and the entry is
gone from the resulting table. -/
def popT (t : Table) (key default : PyObj) : Except PyExc (PyObj × Table) :=
  (pop_ key default (hSearch t (keyBytes key)) (hVal t (keyBytes key))
      (CallRes.ret 0)).map
    (fun v => (v, Table.remove t (keyBytes key)))

/-- get on a healthy engine. -/
def getT (t : Table) (key default : PyObj) : Except PyExc PyObj :=
  get_ key default (hSearch t (keyBytes key)) (hVal t (keyBytes key))

/-! ## Open-mode dispatch and the initialized probe -/

/-- WiredTigerDBM.open (lines 100-122): the mode is mapped to an engine
configuration string; any other mode raises the builtin ValueError before
wiredtiger_open is called, so no connection and no store handle is
produced.  A successful dispatch is represented by the configuration
string the engine would receive. -/
def openStore (mode : String) : Except PyExc String :=
  if mode = "r" then Except.ok "readonly"
  else if mode = "w" then Except.ok ""
  else if mode = "c" then Except.ok "create"
  else if mode = "n" then Except.ok "create"
  else Except.error (PyExc.valueError "Invalid mode")

/-- WiredTigerDBM._initialized (lines 77-85) with the probe's outcome
injected: none models success of open_cursor (a WiredTigerError with the
probe's message otherwise).  On success the cursor is closed and True
returned; on the exact missing-table message False is returned; on any
other message the except clause falls through and the function returns
Python None (modelled as Option.none). -/
def initialized_ (probe : Option String) : Option Bool :=
  match probe with
  | Option.none => Option.some true
  | Option.some msg =>
    if msg = "No such file or directory" then Option.some false
    else Option.none

/-- The mode r/w branch of WiredTigerDBM.__init__ (lines 64-68): the
store is closed and the module error raised unless _initialized returned
True; Python's `if not self._initialized()` treats both False and None
as uninitialized. -/
def initCheckRW (probe : Option String) : Except PyExc Unit :=
  match initialized_ probe with
  | Option.some true => Except.ok ()
  | _ => Except.error (PyExc.storeError "Uninitialized database")

/-! ## Transactional batch update (wtdbm.py lines 288-317)

update opens one overwrite-enabled cursor, begins one engine transaction
and runs one insert per entry in source order (all three source-shape
branches share this loop body; the iterable-of-pairs branch is the one
modelled).  Each entry carries the outcome the engine gives its insert
call.  A raised WiredTigerError is caught: the transaction is rolled
back and the module error re-raised with the engine's message.  A
nonzero return code fails the `assert ret == 0` instead: the resulting
AssertionError is not a WiredTigerError, so neither the rollback branch
nor the commit branch runs and only the finally block closes the cursor.
Only a loop that completes commits.  Uncommitted inserts are never
visible outside the transaction. -/

/-- One entry of an update batch: the key/value pair and the injected
outcome of the engine insert call for it. -/
structure InsEvent where
  key : PyObj
  value : PyObj
  outcome : CallRes
  deriving DecidableEq

/-- The loop of update: codec both components, insert, check the return
code; stops at the first codec error, assertion failure or raised engine
error, else returns the pending (in-transaction) table. -/
def runInserts : Table → List InsEvent → Except PyExc Table
  | t, [] => Except.ok t
  | t, e :: rest =>
    match preKey e.key with
    | Except.error ex => Except.error ex
    | Except.ok kb =>
      match preValue e.value with
      | Except.error ex => Except.error ex
      | Except.ok vb =>
        match e.outcome with
        | CallRes.exn msg => Except.error (PyExc.wiredTigerError msg)
        | CallRes.ret c =>
          if c = 0 then runInserts (Table.insertOverwrite t kb vb) rest
          else Except.error PyExc.assertionError

/-- Everything observable about one update call: the table visible after
it (committed state only), which transaction-ending call ran, that the
cursor was closed, and what the caller receives. -/
structure UpdateTrace where
  visible : Table
  began : Bool
  committed : Bool
  rolledBack : Bool
  cursorClosed : Bool
  result : Option PyExc
  deriving DecidableEq

/-- WiredTigerDBM.update on a batch with injected insert outcomes. -/
def update (t : Table) (batch : List InsEvent) : UpdateTrace :=
  match runInserts t batch with
  | Except.ok t1 =>
    { visible := t1, began := true, committed := true, rolledBack := false,
      cursorClosed := true, result := Option.none }
  | Except.error (PyExc.wiredTigerError msg) =>
    { visible := t, began := true, committed := false, rolledBack := true,
      cursorClosed := true, result := Option.some (PyExc.storeError msg) }
  | Except.error e =>
    { visible := t, began := true, committed := false, rolledBack := false,
      cursorClosed := true, result := Option.some e }

/-- Table after applying one batch entry's insert. -/
def applyEv (t : Table) (e : InsEvent) : Table :=
  Table.insertOverwrite t (keyBytes e.key) (valBytes e.value)

/-- Table after applying a whole batch in source order. -/
def applyEvs : Table → List InsEvent → Table
  | t, [] => t
  | t, e :: rest => applyEvs (applyEv t e) rest

theorem runInserts_all_ret0 (l : List InsEvent) :
    ∀ t : Table, (∀ e ∈ l, e.outcome = CallRes.ret 0) →
    (∀ e ∈ l, exOk (preKey e.key) = true ∧ exOk (preValue e.value) = true) →
    runInserts t l = Except.ok (applyEvs t l) := by
  induction l with
  | nil => intro t _ _; rfl
  | cons e rest ih =>
    intro t hout henc
    obtain ⟨kb, hkb⟩ := exOk_ok (henc e (List.mem_cons_self e rest)).1
    obtain ⟨vb, hvb⟩ := exOk_ok (henc e (List.mem_cons_self e rest)).2
    have hco : e.outcome = CallRes.ret 0 := hout e (List.mem_cons_self e rest)
    have hrec := ih (Table.insertOverwrite t kb vb)
      (fun x hx => hout x (List.mem_cons_of_mem e hx))
      (fun x hx => henc x (List.mem_cons_of_mem e hx))
    simp [runInserts, hkb, hvb, hco, hrec, applyEvs, applyEv,
      keyBytes_eq hkb, valBytes_eq hvb]

theorem runInserts_append (l1 l2 : List InsEvent) :
    ∀ t : Table, runInserts t (l1 ++ l2)
      = match runInserts t l1 with
        | Except.ok t1 => runInserts t1 l2
        | Except.error e => Except.error e := by
  induction l1 with
  | nil => intro t; rfl
  | cons e rest ih =>
    intro t
    cases hkb : preKey e.key with
    | error ex => simp [runInserts, hkb]
    | ok kb =>
      cases hvb : preValue e.value with
      | error ex => simp [runInserts, hkb, hvb]
      | ok vb =>
        cases hco : e.outcome with
        | exn msg => simp [runInserts, hkb, hvb, hco]
        | ret c =>
          by_cases hc : c = 0
          · simp [runInserts, hkb, hvb, hco, hc, ih]
          · simp [runInserts, hkb, hvb, hco, hc]

theorem runInserts_ok_outcomes (l : List InsEvent) :
    ∀ (t t1 : Table), runInserts t l = Except.ok t1 →
    ∀ e ∈ l, e.outcome = CallRes.ret 0 := by
  induction l with
  | nil => intro t t1 _ e he; cases he
  | cons x rest ih =>
    intro t t1 h e he
    cases hkb : preKey x.key with
    | error ex => simp [runInserts, hkb] at h
    | ok kb =>
      cases hvb : preValue x.value with
      | error ex => simp [runInserts, hkb, hvb] at h
      | ok vb =>
        cases hco : x.outcome with
        | exn msg => simp [runInserts, hkb, hvb, hco] at h
        | ret c =>
          simp only [runInserts, hkb, hvb, hco] at h
          by_cases hc : c = 0
          · subst hc
            rw [if_pos rfl] at h
            rcases List.mem_cons.mp he with rfl | hmem
            · exact hco
            · exact ih _ _ h e hmem
          · rw [if_neg hc] at h
            simp at h

theorem search_applyEvs_ne_none (l : List InsEvent) :
    ∀ (t : Table) (q : Bytes), Table.search t q ≠ Option.none →
    Table.search (applyEvs t l) q ≠ Option.none := by
  induction l with
  | nil => intro t q h; exact h
  | cons e rest ih =>
    intro t q h
    apply ih
    rw [applyEv, search_insertOverwrite]
    by_cases hq : keyBytes e.key = q
    · simp [hq]
    · simpa [hq] using h

theorem search_applyEvs_mem (l : List InsEvent) :
    ∀ t : Table, ∀ e ∈ l,
    Table.search (applyEvs t l) (keyBytes e.key) ≠ Option.none := by
  induction l with
  | nil => intro t e he; cases he
  | cons x rest ih =>
    intro t e he
    rcases List.mem_cons.mp he with rfl | hmem
    · show Table.search (applyEvs (applyEv t e) rest) (keyBytes e.key) ≠ Option.none
      apply search_applyEvs_ne_none
      rw [applyEv, search_insertOverwrite]
      simp
    · exact ih (applyEv t x) e hmem

/-! ## Claim theorems -/

/-- C8: for the compression-decorated codec of the gzip store variant,
decoding the encoding of any bytes value at any compression level yields
the value back: the decorated codec is the identity on byte values. -/
theorem gzip_codec_roundtrip (compresslevel : Nat) (b : Bytes) :
    (preValueGzip compresslevel (PyObj.pyBytes b)).map postValueGzip
      = Except.ok (PyObj.pyBytes b) := by
  simp [preValueGzip, preValue, postValueGzip, Except.map,
    gzipDecompress_gzipCompress]

/-- C4 counterexample: mode "x" makes open fail with the builtin
ValueError, which is not the module's own error class (the failure type
that plays the spec's AccessError role). -/
theorem open_invalid_mode_cex :
    openStore "x" = Except.error (PyExc.valueError "Invalid mode")
    ∧ errIsStoreError (openStore "x") = false := by decide

/-- C4 amended: for every mode other than r, w, c and n, open raises the
builtin ValueError before the engine connection is opened, so no store
handle is returned; the failure is the untranslated builtin, not the
module's error class. -/
theorem open_invalid_mode (mode : String)
    (h1 : mode ≠ "r") (h2 : mode ≠ "w") (h3 : mode ≠ "c") (h4 : mode ≠ "n") :
    openStore mode = Except.error (PyExc.valueError "Invalid mode")
    ∧ errIsStoreError (openStore mode) = false := by
  simp [openStore, h1, h2, h3, h4, errIsStoreError]

/-- C4 witness: the amended theorem at the concrete mode "x". -/
theorem open_invalid_mode_witness :
    ("x" : String) ≠ "r"
    ∧ openStore "x" = Except.error (PyExc.valueError "Invalid mode") := by
  refine ⟨by decide, ?_⟩
  exact (open_invalid_mode "x" (by decide) (by decide) (by decide)
    (by decide)).1

/-- C5: an engine error raised by the initialized probe with any message
other than the exact missing-table one is swallowed: _initialized falls
through its except clause and returns Python None, and the r/w branch of
init then reports the module error "Uninitialized database" instead of a
translated error carrying the engine's message; success and the exact
missing message are classified as present and absent. -/
theorem initialized_probe_swallows :
    initialized_ (Option.some "WT_ERROR: generic engine failure")
      = Option.none
    ∧ initCheckRW (Option.some "WT_ERROR: generic engine failure")
        = Except.error (PyExc.storeError "Uninitialized database")
    ∧ initialized_ (Option.some "No such file or directory")
        = Option.some false
    ∧ initCheckRW (Option.some "No such file or directory")
        = Except.error (PyExc.storeError "Uninitialized database")
    ∧ initialized_ Option.none = Option.some true
    ∧ initCheckRW Option.none = Except.ok () := by decide

/-- C7 counterexample: on an empty store, get of an absent key with the
default argument omitted (Python binds the module sentinel _DEFAULT)
returns that private sentinel object, which is not None. -/
theorem get_omitted_default_cex :
    getT [] (PyObj.pyBytes [1]) PyObj.pySentinel
      = Except.ok PyObj.pySentinel
    ∧ PyObj.pySentinel ≠ PyObj.pyNone := by decide

/-- C7 amended: for every key absent from the store, get with the default
argument omitted returns the module-private sentinel _DEFAULT (the value
Python binds for the omitted parameter), which is not None; an explicitly
passed default, None included, is returned as given. -/
theorem get_returns_bound_default (t : Table) (k : PyObj) (kb : Bytes)
    (hk : preKey k = Except.ok kb) (habs : Table.search t kb = Option.none) :
    getT t k PyObj.pySentinel = Except.ok PyObj.pySentinel
    ∧ PyObj.pySentinel ≠ PyObj.pyNone
    ∧ ∀ d : PyObj, getT t k d = Except.ok d := by
  have hd : ∀ d : PyObj, getT t k d = Except.ok d := by
    intro d
    simp [getT, get_, hk, keyBytes_eq hk, hSearch, habs, WT_NOTFOUND]
  exact ⟨hd _, by decide, hd⟩

/-- C7 witness: the amended theorem at a concrete absent key, with the
explicit default None. -/
theorem get_returns_bound_default_witness :
    preKey (PyObj.pyBytes [2]) = Except.ok [2]
    ∧ getT [] (PyObj.pyBytes [2]) PyObj.pyNone = Except.ok PyObj.pyNone := by
  refine ⟨rfl, ?_⟩
  exact (get_returns_bound_default [] (PyObj.pyBytes [2]) [2] rfl rfl).2.2
    PyObj.pyNone

/-- C2 counterexample: storing the str value "a" under a bytes key makes
the subsequent lookup return the Latin-1 encoded bytes object, which is
not equal to the str value that was stored (membership still holds). -/
theorem setitem_str_value_cex :
    setitemT [] (PyObj.pyBytes [107]) (PyObj.pyStr [97])
      = Except.ok [([107], [97])]
    ∧ getitemT [([107], [97])] (PyObj.pyBytes [107])
        = Except.ok (PyObj.pyBytes [97])
    ∧ PyObj.pyBytes [97] ≠ PyObj.pyStr [97]
    ∧ containsT [([107], [97])] (PyObj.pyBytes [107]) = Except.ok true := by
  decide

/-- C2 amended: for every key and value the codec accepts, immediately
after a successful set the lookup returns the encoded bytes of the value
and membership is true; when the value is a bytes object the lookup
result is equal to it (for str values it is the Latin-1 encoding, a bytes
object distinct from the str). -/
theorem setitem_then_lookup (t : Table) (k v : PyObj) (kb vb : Bytes)
    (hk : preKey k = Except.ok kb) (hv : preValue v = Except.ok vb) :
    setitemT t k v = Except.ok (Table.insertOverwrite t kb vb)
    ∧ getitemT (Table.insertOverwrite t kb vb) k
        = Except.ok (PyObj.pyBytes vb)
    ∧ containsT (Table.insertOverwrite t kb vb) k = Except.ok true
    ∧ (v = PyObj.pyBytes vb →
        getitemT (Table.insertOverwrite t kb vb) k = Except.ok v) := by
  have hs : Table.search (Table.insertOverwrite t kb vb) kb
      = Option.some vb := by
    simp [search_insertOverwrite]
  have hget : getitemT (Table.insertOverwrite t kb vb) k
      = Except.ok (PyObj.pyBytes vb) := by
    simp [getitemT, getitem_, hk, keyBytes_eq hk, hSearch, hVal, hs, postValue]
  refine ⟨?_, hget, ?_, ?_⟩
  · simp [setitemT, setitem_, hk, hv, keyBytes_eq hk, valBytes_eq hv,
      Except.map]
  · simp [containsT, contains_, hk, keyBytes_eq hk, hSearch, hs]
  · intro hvb
    rw [hvb]
    exact hget

/-- C2 witness: the amended theorem at a concrete bytes key and bytes
value. -/
theorem setitem_then_lookup_witness :
    preKey (PyObj.pyBytes [5]) = Except.ok [5]
    ∧ preValue (PyObj.pyBytes [9]) = Except.ok [9]
    ∧ setitemT [] (PyObj.pyBytes [5]) (PyObj.pyBytes [9])
        = Except.ok [([5], [9])]
    ∧ getitemT [([5], [9])] (PyObj.pyBytes [5])
        = Except.ok (PyObj.pyBytes [9]) := by
  have h := setitem_then_lookup [] (PyObj.pyBytes [5]) (PyObj.pyBytes [9])
    [5] [9] rfl rfl
  exact ⟨rfl, rfl, h.1, h.2.2.2 rfl⟩

/-- C6 counterexample: when the remove call raises an engine error after
a successful search, pop fails with the untranslated raised engine
exception, not with the module error (pop has no except clause); the
read value is still not returned. -/
theorem pop_remove_exn_cex :
    pop_ (PyObj.pyBytes [1]) PyObj.pyNone (CallRes.ret 0) [7]
        (CallRes.exn "WT_ERROR: disk failure")
      = Except.error (PyExc.wiredTigerError "WT_ERROR: disk failure")
    ∧ errIsStoreError (pop_ (PyObj.pyBytes [1]) PyObj.pyNone (CallRes.ret 0)
        [7] (CallRes.exn "WT_ERROR: disk failure")) = false := by decide

/-- C6 amended: pop searches first; on a present key it captures the
stored value, removes the entry and returns the decoded value, leaving
the key absent; when the remove call reports a nonzero return code after
a successful search, pop fails with the module error and does not return
the read value; when the remove call raises an engine error, pop fails
with that untranslated engine exception and does not return the read
value; on an absent key the given default is returned and the table is
unchanged. -/
theorem pop_semantics (t : Table) (k d : PyObj) (kb : Bytes)
    (hk : preKey k = Except.ok kb) :
    (∀ v : Bytes, Table.search t kb = Option.some v →
        popT t k d = Except.ok (PyObj.pyBytes v, Table.remove t kb)
        ∧ Table.search (Table.remove t kb) kb = Option.none)
    ∧ (Table.search t kb = Option.none → popT t k d = Except.ok (d, t))
    ∧ (∀ (val : Bytes) (c2 : Int), c2 ≠ 0 →
        pop_ k d (CallRes.ret 0) val (CallRes.ret c2)
          = Except.error
              (PyExc.storeError ("remove failed: " ++ toString c2)))
    ∧ (∀ (val : Bytes) (msg : String),
        pop_ k d (CallRes.ret 0) val (CallRes.exn msg)
          = Except.error (PyExc.wiredTigerError msg)) := by
  refine ⟨?_, ?_, ?_, ?_⟩
  · intro v hfound
    constructor
    · simp [popT, pop_, hk, keyBytes_eq hk, hSearch, hVal, hfound,
        postValue, Except.map]
    · simp [search_remove]
  · intro habs
    simp [popT, pop_, hk, keyBytes_eq hk, hSearch, hVal, habs, WT_NOTFOUND,
      Except.map, remove_of_search_none t kb habs]
  · intro val c2 hc2
    simp [pop_, hk, hc2]
  · intro val msg
    simp [pop_, hk]

/-- C6 witness: the amended theorem at a concrete store: pop of the
present key returns its value and leaves it absent, and a pop on the
empty store returns the given default. -/
theorem pop_semantics_witness :
    preKey (PyObj.pyBytes [1]) = Except.ok [1]
    ∧ Table.search [([1], [7])] [1] = Option.some [7]
    ∧ popT [([1], [7])] (PyObj.pyBytes [1]) PyObj.pyNone
        = Except.ok (PyObj.pyBytes [7], [])
    ∧ popT [] (PyObj.pyBytes [1]) PyObj.pyNone
        = Except.ok (PyObj.pyNone, []) := by
  refine ⟨rfl, rfl, ?_, ?_⟩
  · exact ((pop_semantics [([1], [7])] (PyObj.pyBytes [1]) PyObj.pyNone
      [1] rfl).1 [7] rfl).1
  · exact (pop_semantics [] (PyObj.pyBytes [1]) PyObj.pyNone [1] rfl).2.1 rfl

/-- C3 counterexample: a raised engine error during lookup reaches the
caller untranslated: the result is the raw engine exception with its
message, not the module error. -/
theorem error_translation_cex :
    getitem_ (PyObj.pyBytes [1]) (CallRes.exn "WT_ROLLBACK: conflict") []
      = Except.error (PyExc.wiredTigerError "WT_ROLLBACK: conflict")
    ∧ errIsStoreError (getitem_ (PyObj.pyBytes [1])
        (CallRes.exn "WT_ROLLBACK: conflict") []) = false
    ∧ errIsRawEngine (getitem_ (PyObj.pyBytes [1])
        (CallRes.exn "WT_ROLLBACK: conflict") []) = true := by decide

/-- C3 amended: every engine failure reported as an unexpected return
code (neither success nor the missing-key code) is translated to the
module error before reaching the caller, for lookup, delete, contains,
get, pop and iteration alike; insert additionally translates a raised
engine error into the module error carrying the engine's message; but
lookup, delete, contains, get, pop and iteration have no except clause,
so a raised engine error reaches their caller untranslated. -/
theorem error_translation :
    (∀ (k : PyObj) (kb : Bytes) (c : Int) (val : Bytes),
        preKey k = Except.ok kb → c ≠ 0 → c ≠ WT_NOTFOUND →
        getitem_ k (CallRes.ret c) val
          = Except.error
              (PyExc.storeError ("Unknown return code: " ++ toString c)))
    ∧ (∀ (k : PyObj) (kb : Bytes) (c : Int),
        preKey k = Except.ok kb → c ≠ 0 → c ≠ WT_NOTFOUND →
        delitem_ k (CallRes.ret c)
          = Except.error
              (PyExc.storeError ("Unknown return code: " ++ toString c)))
    ∧ (∀ (k : PyObj) (kb : Bytes) (c : Int),
        preKey k = Except.ok kb → c ≠ 0 → c ≠ WT_NOTFOUND →
        contains_ k (CallRes.ret c)
          = Except.error
              (PyExc.storeError ("Unknown return code: " ++ toString c)))
    ∧ (∀ (k d : PyObj) (kb : Bytes) (c : Int) (val : Bytes),
        preKey k = Except.ok kb → c ≠ 0 → c ≠ WT_NOTFOUND →
        get_ k d (CallRes.ret c) val
          = Except.error
              (PyExc.storeError ("Unknown return code: " ++ toString c)))
    ∧ (∀ (k d : PyObj) (kb : Bytes) (c : Int) (val : Bytes),
        preKey k = Except.ok kb → c ≠ 0 → c ≠ WT_NOTFOUND →
        pop_ k d (CallRes.ret c) val (CallRes.ret 0)
          = Except.error
              (PyExc.storeError ("Unknown return code: " ++ toString c)))
    ∧ (∀ (c : Int) (elem : Bytes), c ≠ 0 → c ≠ WT_NOTFOUND →
        iterStep_ (CallRes.ret c) elem
          = Except.error
              (PyExc.storeError ("Unknown return code: " ++ toString c)))
    ∧ (∀ (k v : PyObj) (kb vb : Bytes) (msg : String),
        preKey k = Except.ok kb → preValue v = Except.ok vb →
        setitem_ k v (CallRes.exn msg)
          = Except.error (PyExc.storeError msg))
    ∧ (∀ (k v : PyObj) (kb vb : Bytes) (c : Int),
        preKey k = Except.ok kb → preValue v = Except.ok vb → c ≠ 0 →
        setitem_ k v (CallRes.ret c)
          = Except.error
              (PyExc.storeError ("Unknown return code: " ++ toString c)))
    ∧ (∀ (k : PyObj) (kb : Bytes) (msg : String) (val : Bytes),
        preKey k = Except.ok kb →
        getitem_ k (CallRes.exn msg) val
          = Except.error (PyExc.wiredTigerError msg))
    ∧ (∀ (k : PyObj) (kb : Bytes) (msg : String),
        preKey k = Except.ok kb →
        delitem_ k (CallRes.exn msg)
          = Except.error (PyExc.wiredTigerError msg))
    ∧ (∀ (k : PyObj) (kb : Bytes) (msg : String),
        preKey k = Except.ok kb →
        contains_ k (CallRes.exn msg)
          = Except.error (PyExc.wiredTigerError msg))
    ∧ (∀ (k d : PyObj) (kb : Bytes) (msg : String) (val : Bytes),
        preKey k = Except.ok kb →
        get_ k d (CallRes.exn msg) val
          = Except.error (PyExc.wiredTigerError msg))
    ∧ (∀ (k d : PyObj) (kb : Bytes) (msg : String) (val : Bytes),
        preKey k = Except.ok kb →
        pop_ k d (CallRes.exn msg) val (CallRes.ret 0)
          = Except.error (PyExc.wiredTigerError msg))
    ∧ (∀ (msg : String) (elem : Bytes),
        iterStep_ (CallRes.exn msg) elem
          = Except.error (PyExc.wiredTigerError msg)) := by
  refine ⟨?_, ?_, ?_, ?_, ?_, ?_, ?_, ?_, ?_, ?_, ?_, ?_, ?_, ?_⟩
  · intro k kb c val hk hc hcn
    simp [getitem_, hk, hc, hcn]
  · intro k kb c hk hc hcn
    simp [delitem_, hk, hc, hcn]
  · intro k kb c hk hc hcn
    simp [contains_, hk, hc, hcn]
  · intro k d kb c val hk hc hcn
    simp [get_, hk, hc, hcn]
  · intro k d kb c val hk hc hcn
    simp [pop_, hk, hc, hcn]
  · intro c elem hc hcn
    simp [iterStep_, hc, hcn]
  · intro k v kb vb msg hk hv
    simp [setitem_, hk, hv]
  · intro k v kb vb c hk hv hc
    simp [setitem_, hk, hv, hc]
  · intro k kb msg val hk
    simp [getitem_, hk]
  · intro k kb msg hk
    simp [delitem_, hk]
  · intro k kb msg hk
    simp [contains_, hk]
  · intro k d kb msg val hk
    simp [get_, hk]
  · intro k d kb msg val hk
    simp [pop_, hk]
  · intro msg elem
    simp [iterStep_]

/-- C3 witness: the amended theorem at concrete inputs: an unexpected
return code 5 during lookup is translated to the module error, and a
raised engine error during insert is translated to the module error with
the engine's message. -/
theorem error_translation_witness :
    preKey (PyObj.pyBytes [1]) = Except.ok [1]
    ∧ (5 : Int) ≠ 0
    ∧ getitem_ (PyObj.pyBytes [1]) (CallRes.ret 5) []
        = Except.error
            (PyExc.storeError ("Unknown return code: " ++ toString (5 : Int)))
    ∧ setitem_ (PyObj.pyBytes [1]) (PyObj.pyBytes [2])
        (CallRes.exn "WT_CACHE_FULL: operation would overflow cache")
        = Except.error
            (PyExc.storeError "WT_CACHE_FULL: operation would overflow cache") := by
  obtain ⟨h1, _, _, _, _, _, h7, _⟩ := error_translation
  refine ⟨rfl, by decide, ?_, ?_⟩
  · exact h1 (PyObj.pyBytes [1]) [1] 5 [] rfl (by decide) (by decide)
  · exact h7 (PyObj.pyBytes [1]) (PyObj.pyBytes [2]) [1] [2]
      "WT_CACHE_FULL: operation would overflow cache" rfl rfl

/-- C1: update is all-or-nothing.  When every insert call of the batch
returns status 0, the transaction is begun and committed, the cursor is
closed, no error is raised, the visible table is the batch applied in
source order, and every key of the batch is present afterwards.  When
the first engine failure is a raised engine error (the engine exception
channel that update's except clause handles), the whole transaction is
rolled back, no entry of the batch becomes visible (the visible table is
exactly the pre-update table), and the module error carrying the
engine's message is raised. -/
theorem update_all_or_nothing (t : Table) (pre rest : List InsEvent)
    (k v : PyObj) (msg : String)
    (hout : ∀ e ∈ pre, e.outcome = CallRes.ret 0)
    (henc : ∀ e ∈ pre, exOk (preKey e.key) = true ∧ exOk (preValue e.value) = true)
    (hk : exOk (preKey k) = true) (hv : exOk (preValue v) = true) :
    ((update t pre).began = true
      ∧ (update t pre).committed = true
      ∧ (update t pre).result = Option.none
      ∧ (update t pre).cursorClosed = true
      ∧ (update t pre).visible = applyEvs t pre
      ∧ ∀ e ∈ pre,
          Table.search (update t pre).visible (keyBytes e.key) ≠ Option.none)
    ∧ ((update t (pre ++ InsEvent.mk k v (CallRes.exn msg) :: rest)).began = true
      ∧ (update t (pre ++ InsEvent.mk k v (CallRes.exn msg) :: rest)).rolledBack = true
      ∧ (update t (pre ++ InsEvent.mk k v (CallRes.exn msg) :: rest)).committed = false
      ∧ (update t (pre ++ InsEvent.mk k v (CallRes.exn msg) :: rest)).visible = t
      ∧ (update t (pre ++ InsEvent.mk k v (CallRes.exn msg) :: rest)).result
          = Option.some (PyExc.storeError msg)
      ∧ (update t (pre ++ InsEvent.mk k v (CallRes.exn msg) :: rest)).cursorClosed
          = true) := by
  have hok : runInserts t pre = Except.ok (applyEvs t pre) :=
    runInserts_all_ret0 pre t hout henc
  obtain ⟨kb, hkb⟩ := exOk_ok hk
  obtain ⟨vb, hvb⟩ := exOk_ok hv
  have hfail : runInserts t (pre ++ InsEvent.mk k v (CallRes.exn msg) :: rest)
      = Except.error (PyExc.wiredTigerError msg) := by
    rw [runInserts_append]
    simp [hok, runInserts, hkb, hvb]
  constructor
  · simp only [update, hok]
    exact ⟨trivial, trivial, trivial, trivial, trivial,
      fun e he => search_applyEvs_mem pre t e he⟩
  · simp [update, hfail]

/-- C1 witness: the theorem at a concrete two-entry batch: with both
inserts succeeding the batch commits and both keys are stored; with a
raised engine error on the second insert the transaction is rolled back,
the table stays empty and the module error carries the engine's
message. -/
theorem update_all_or_nothing_witness :
    (update [] [InsEvent.mk (PyObj.pyBytes [1]) (PyObj.pyBytes [2])
        (CallRes.ret 0)]).committed = true
    ∧ (update [] [InsEvent.mk (PyObj.pyBytes [1]) (PyObj.pyBytes [2])
        (CallRes.ret 0)]).visible = [([1], [2])]
    ∧ (update [] (InsEvent.mk (PyObj.pyBytes [1]) (PyObj.pyBytes [2])
          (CallRes.ret 0)
        :: InsEvent.mk (PyObj.pyBytes [3]) (PyObj.pyBytes [4])
          (CallRes.exn "WT_ROLLBACK: conflict between concurrent operations")
        :: [])).rolledBack = true
    ∧ (update [] (InsEvent.mk (PyObj.pyBytes [1]) (PyObj.pyBytes [2])
          (CallRes.ret 0)
        :: InsEvent.mk (PyObj.pyBytes [3]) (PyObj.pyBytes [4])
          (CallRes.exn "WT_ROLLBACK: conflict between concurrent operations")
        :: [])).visible = []
    ∧ (update [] (InsEvent.mk (PyObj.pyBytes [1]) (PyObj.pyBytes [2])
          (CallRes.ret 0)
        :: InsEvent.mk (PyObj.pyBytes [3]) (PyObj.pyBytes [4])
          (CallRes.exn "WT_ROLLBACK: conflict between concurrent operations")
        :: [])).result
        = Option.some (PyExc.storeError
            "WT_ROLLBACK: conflict between concurrent operations") := by
  have h := update_all_or_nothing []
    [InsEvent.mk (PyObj.pyBytes [1]) (PyObj.pyBytes [2]) (CallRes.ret 0)] []
    (PyObj.pyBytes [3]) (PyObj.pyBytes [4])
    "WT_ROLLBACK: conflict between concurrent operations"
    (by decide) (by decide) (by decide) (by decide)
  exact ⟨h.1.2.1, h.1.2.2.2.2.1, h.2.2.1, h.2.2.2.2.1, h.2.2.2.2.2.1⟩

/-- C10: when an insert call of update returns a nonzero status code
without raising an engine exception, the `assert ret == 0` fails: the
caller sees an AssertionError, the transaction is neither committed nor
rolled back (it is left open; only the finally block closes the cursor),
and no uncommitted insert is visible; moreover a commit happens only
when every insert call of the batch returned status zero. -/
theorem update_assert_path (t : Table) (pre rest : List InsEvent)
    (k v : PyObj) (c : Int)
    (hout : ∀ e ∈ pre, e.outcome = CallRes.ret 0)
    (henc : ∀ e ∈ pre, exOk (preKey e.key) = true ∧ exOk (preValue e.value) = true)
    (hk : exOk (preKey k) = true) (hv : exOk (preValue v) = true)
    (hc : c ≠ 0) :
    ((update t (pre ++ InsEvent.mk k v (CallRes.ret c) :: rest)).result
        = Option.some PyExc.assertionError
      ∧ (update t (pre ++ InsEvent.mk k v (CallRes.ret c) :: rest)).committed = false
      ∧ (update t (pre ++ InsEvent.mk k v (CallRes.ret c) :: rest)).rolledBack = false
      ∧ (update t (pre ++ InsEvent.mk k v (CallRes.ret c) :: rest)).cursorClosed = true
      ∧ (update t (pre ++ InsEvent.mk k v (CallRes.ret c) :: rest)).visible = t)
    ∧ ∀ b : List InsEvent, (update t b).committed = true →
        ∀ e ∈ b, e.outcome = CallRes.ret 0 := by
  have hok : runInserts t pre = Except.ok (applyEvs t pre) :=
    runInserts_all_ret0 pre t hout henc
  obtain ⟨kb, hkb⟩ := exOk_ok hk
  obtain ⟨vb, hvb⟩ := exOk_ok hv
  have hfail : runInserts t (pre ++ InsEvent.mk k v (CallRes.ret c) :: rest)
      = Except.error PyExc.assertionError := by
    rw [runInserts_append]
    simp [hok, runInserts, hkb, hvb, hc]
  constructor
  · simp [update, hfail]
  · intro b hb e he
    cases hr : runInserts t b with
    | ok t1 => exact runInserts_ok_outcomes b t t1 hr e he
    | error ex =>
      cases ex <;> simp [update, hr] at hb

/-- C10 witness: the theorem at a one-entry batch whose insert returns
code 5: the caller sees the assertion failure, nothing is committed or
rolled back, the table stays empty; and the committed-only-if-all-zero
direction at that batch. -/
theorem update_assert_path_witness :
    (update [] [InsEvent.mk (PyObj.pyBytes [1]) (PyObj.pyBytes [2])
        (CallRes.ret 5)]).result = Option.some PyExc.assertionError
    ∧ (update [] [InsEvent.mk (PyObj.pyBytes [1]) (PyObj.pyBytes [2])
        (CallRes.ret 5)]).committed = false
    ∧ (update [] [InsEvent.mk (PyObj.pyBytes [1]) (PyObj.pyBytes [2])
        (CallRes.ret 5)]).rolledBack = false
    ∧ (update [] [InsEvent.mk (PyObj.pyBytes [1]) (PyObj.pyBytes [2])
        (CallRes.ret 5)]).cursorClosed = true
    ∧ (update [] [InsEvent.mk (PyObj.pyBytes [1]) (PyObj.pyBytes [2])
        (CallRes.ret 5)]).visible = [] := by
  have h := update_assert_path [] [] []
    (PyObj.pyBytes [1]) (PyObj.pyBytes [2]) 5
    (by decide) (by decide) (by decide) (by decide) (by decide)
  exact ⟨h.1.1, h.1.2.1, h.1.2.2.1, h.1.2.2.2.1, h.1.2.2.2.2⟩

end Wtdbm
